import Mathlib

/-!
Verification development for the molt-client Gateway connection engine
(`src-tauri/src/protocol.rs` and `src-tauri/src/gateway.rs`).

The Rust sources are shallowly embedded: pure functions become Lean
functions, stateful code becomes explicit state passing over a state
record, machine integers become `Nat`/`Int` with explicit `% 2^w` where
wrapping matters, `f64` arithmetic in the backoff calculator is idealised
over `ℚ` (the claims proved about it have enough slack that rounding of
the exact rational values cannot cross the stated bounds), and fallible
code returns `Except`.  Nondeterministic inputs of the environment
(network outcomes, the PRNG sample, generated uuids, the wall clock) are
passed as explicit parameters.
-/

namespace Molt

/-! ### JSON value model

Models `serde_json::Value`.  JSON numbers are modelled as integers (the
protocol only uses integer numbers; a fractional literal would reject in
the integer-typed fields the claims touch, which the parse-outcome input
of `validate_frame` already accounts for).  Objects are association
lists; serde rejects duplicate keys, so objects are read first-key-wins
and assumed duplicate-free. -/
inductive Json where
  | null
  | bool (b : Bool)
  | num (n : Int)
  | str (s : String)
  | arr (elems : List Json)
  | obj (fields : List (String × Json))

/-- Field lookup on a JSON object (`Value::get` for objects). -/
def Json.lookup (j : Json) (key : String) : Option Json :=
  match j with
  | .obj fields => List.lookup key fields
  | _ => none

/-- `Value::as_str`. -/
def Json.asStr (j : Json) : Option String :=
  match j with
  | .str s => some s
  | _ => none

/-! ### protocol.rs: constants -/

/-- `BACKOFF_INITIAL_MS` (protocol.rs line 23). -/
def BACKOFF_INITIAL_MS : Nat := 5000

/-- `BACKOFF_MAX_MS` (protocol.rs line 24). -/
def BACKOFF_MAX_MS : Nat := 60000

/-- `MAX_RECONNECT_ATTEMPTS` (protocol.rs line 26). -/
def MAX_RECONNECT_ATTEMPTS : Nat := 10

/-! ### protocol.rs: error classification -/

/-- Raw error from gateway before classification (protocol.rs `RawGatewayError`). -/
structure RawGatewayError where
  code : String
  message : String
  details : Option Json
  retryable : Option Bool

/-- Classified error taxonomy (protocol.rs `GatewayError`).  `Duration`
fields are modelled in milliseconds (`retry_after`) or carried as the
seconds count the constructor stores (`timeout_secs`, `idle_secs`). -/
inductive GatewayError where
  | Network (message : String) (retryable : Bool) (retry_after : Option Nat)
  | Protocol (message : String) (code : Option String) (retryable : Bool)
  | Gateway (code : String) (message : String) (details : Option Json) (retryable : Bool)
  | Auth (message : String) (code : String)
  | Timeout (timeout_secs : Nat) (request_id : Option String)
  | StreamTimeout (idle_secs : Nat) (run_id : Option String)
  | Validation (message : String) (field : Option String)
  | Closed (reason : String) (code : Option Nat) (retryable : Bool)

/-- `GatewayError::is_retryable` (protocol.rs lines 100-111). -/
def GatewayError.is_retryable : GatewayError → Bool
  | .Network _ r _ => r
  | .Protocol _ _ r => r
  | .Gateway _ _ _ r => r
  | .Auth _ _ => false
  | .Timeout _ _ => true
  | .StreamTimeout _ _ => true
  | .Validation _ _ => false
  | .Closed _ _ r => r

/-- `GatewayError::requires_reauth` (protocol.rs lines 114-122). -/
def GatewayError.requires_reauth : GatewayError → Bool
  | .Auth _ _ => true
  | .Gateway code _ _ _ =>
      code == "UNAUTHORIZED" || code == "FORBIDDEN" || code == "TOKEN_EXPIRED"
  | _ => false

/-- `Display` for `GatewayError` (the thiserror `#[error(...)]` strings). -/
def GatewayError.display : GatewayError → String
  | .Network m _ _ => "Network error: " ++ m
  | .Protocol m _ _ => "Protocol error: " ++ m
  | .Gateway c m _ _ => "Gateway error (" ++ c ++ "): " ++ m
  | .Auth m _ => "Authentication error: " ++ m
  | .Timeout t _ => "Request timeout after " ++ toString t ++ "s"
  | .StreamTimeout i _ => "Stream timeout: no data for " ++ toString i ++ "s"
  | .Validation m _ => "Validation error: " ++ m
  | .Closed r _ _ => "Connection closed: " ++ r

/-- `GatewayError::user_message` (protocol.rs lines 125-152). -/
def GatewayError.user_message : GatewayError → String
  | .Network _ _ _ => "Unable to connect to Gateway. Please check your network connection."
  | .Protocol m _ _ => "Communication error: " ++ m ++ ". Try reconnecting."
  | .Gateway c m _ _ => "[" ++ c ++ "] " ++ m
  | .Auth m _ => "Authentication failed: " ++ m ++ ". Please check your credentials."
  | .Timeout t _ => "Request timed out after " ++ toString t ++ "s. Please try again."
  | .StreamTimeout i _ =>
      "No response received for " ++ toString i ++ "s. The request may still be processing."
  | .Validation m _ => "Invalid request: " ++ m
  | .Closed r _ _ => "Connection closed: " ++ r

/-! ### protocol.rs: connection state -/

/-- Connection state (protocol.rs `ConnectionState`). -/
inductive ConnectionState where
  | Disconnected
  | Connecting
  | Connected (session_id : Option String)
  | Reconnecting (attempt : Nat) (max_attempts : Nat) (next_retry_ms : Nat) (reason : String)
  | Failed (reason : String) (can_retry : Bool)
deriving DecidableEq

/-- `ConnectionState::is_connected` (protocol.rs lines 218-220). -/
def ConnectionState.is_connected : ConnectionState → Bool
  | .Connected _ => true
  | _ => false

/-- `ConnectionState::is_connecting` (protocol.rs lines 222-224). -/
def ConnectionState.is_connecting : ConnectionState → Bool
  | .Connecting => true
  | .Reconnecting _ _ _ _ => true
  | _ => false

/-! ### protocol.rs: health metrics -/

/-- Health metrics (protocol.rs `HealthMetrics`); `Instant` is a `Nat`
millisecond timestamp. -/
structure HealthMetrics where
  latencies : List Nat
  recent_failures : Nat
  recent_successes : Nat
  last_ping_success : Option Nat
  pending_acks : Nat
deriving DecidableEq

/-- `HealthMetrics::default()`. -/
def HealthMetrics.default : HealthMetrics :=
  { latencies := [], recent_failures := 0, recent_successes := 0,
    last_ping_success := none, pending_acks := 0 }

/-- `HealthMetrics::reset` (protocol.rs lines 283-289): clears every field. -/
def HealthMetrics.reset (_h : HealthMetrics) : HealthMetrics :=
  HealthMetrics.default

/-! ### protocol.rs: frame validation -/

/-- Validated gateway frame (protocol.rs `ValidatedFrame`). -/
inductive ValidatedFrame where
  | Request (id : String) (method : String) (params : Option Json)
  | Response (id : String) (ok : Bool) (payload : Option Json) (error : Option RawGatewayError)
  | Event (event : String) (seq : Option Int) (payload : Option Json)

/-- Raw frame for parsing (protocol.rs `RawFrame`). -/
structure RawFrame where
  frame_type : Option String
  id : Option String
  method : Option String
  params : Option Json
  ok : Option Bool
  payload : Option Json
  error : Option RawGatewayError
  event : Option String
  seq : Option Int

/-- serde extraction of an `Option<String>` struct field: missing or null
gives `none`, a string gives `some`, any other value is a type error. -/
def optStrField (fields : List (String × Json)) (name : String) : Except String (Option String) :=
  match List.lookup name fields with
  | none => .ok none
  | some .null => .ok none
  | some (.str s) => .ok (some s)
  | some _ => .error ("invalid type for field " ++ name)

/-- serde extraction of an `Option<bool>` struct field. -/
def optBoolField (fields : List (String × Json)) (name : String) : Except String (Option Bool) :=
  match List.lookup name fields with
  | none => .ok none
  | some .null => .ok none
  | some (.bool b) => .ok (some b)
  | some _ => .error ("invalid type for field " ++ name)

/-- serde extraction of an `Option<i32>` struct field. -/
def optI32Field (fields : List (String × Json)) (name : String) : Except String (Option Int) :=
  match List.lookup name fields with
  | none => .ok none
  | some .null => .ok none
  | some (.num n) =>
      if -(2 ^ 31) ≤ n ∧ n < 2 ^ 31 then .ok (some n)
      else .error ("number out of range for field " ++ name)
  | some _ => .error ("invalid type for field " ++ name)

/-- serde extraction of an `Option<serde_json::Value>` struct field:
missing or null gives `none`, any other value is kept. -/
def optValueField (fields : List (String × Json)) (name : String) : Option Json :=
  match List.lookup name fields with
  | none => none
  | some .null => none
  | some v => some v

/-- serde deserialization of `RawGatewayError`: `code` and `message` are
required `String` fields, `details` and `retryable` are optional. -/
def rawGatewayErrorFromJson (j : Json) : Except String RawGatewayError :=
  match j with
  | .obj fields =>
      match List.lookup "code" fields with
      | some (.str code) =>
          match List.lookup "message" fields with
          | some (.str message) =>
              match optBoolField fields "retryable" with
              | .error e => .error e
              | .ok retryable =>
                  .ok { code := code, message := message,
                        details := optValueField fields "details", retryable := retryable }
          | some _ => .error "invalid type for field message"
          | none => .error "missing field message"
      | some _ => .error "invalid type for field code"
      | none => .error "missing field code"
  | _ => .error "expected object for RawGatewayError"

/-- serde extraction of the `Option<RawGatewayError>` field `error`. -/
def optErrField (fields : List (String × Json)) : Except String (Option RawGatewayError) :=
  match List.lookup "error" fields with
  | none => .ok none
  | some .null => .ok none
  | some v =>
      match rawGatewayErrorFromJson v with
      | .ok e => .ok (some e)
      | .error m => .error m

/-- serde deserialization of `RawFrame` from a JSON value (the typed half
of `serde_json::from_str::<RawFrame>`); unknown fields are ignored. -/
def rawFrameFromJson (j : Json) : Except String RawFrame :=
  match j with
  | .obj fields => do
      let frame_type ← optStrField fields "type"
      let id ← optStrField fields "id"
      let method ← optStrField fields "method"
      let ok ← optBoolField fields "ok"
      let error ← optErrField fields
      let event ← optStrField fields "event"
      let seq ← optI32Field fields "seq"
      .ok { frame_type := frame_type, id := id, method := method,
            params := optValueField fields "params", ok := ok,
            payload := optValueField fields "payload", error := error,
            event := event, seq := seq }
  | _ => .error "expected object for RawFrame"

/-- The outcome of `serde_json::from_str::<RawFrame>(json)`.  The input
of `validate_frame` is the syntactic parse outcome of the raw text
(`Except String Json`, produced by the serde_json grammar, which is
library code outside this repository); the typed extraction into
`RawFrame` is modelled by `rawFrameFromJson`. -/
def parseRawFrame (input : Except String Json) : Except String RawFrame :=
  input.bind rawFrameFromJson

/-- `validate_frame` (protocol.rs lines 381-449), over the parse outcome
of the raw text. -/
def validate_frame (input : Except String Json) : Except GatewayError ValidatedFrame :=
  match parseRawFrame input with
  | .error e =>
      .error (.Protocol ("Invalid JSON: " ++ e) (some "INVALID_JSON") false)
  | .ok raw =>
      match raw.frame_type with
      | none => .error (.Protocol "Missing 'type' field" (some "MISSING_TYPE") false)
      | some ft =>
          if ft = "req" then
            match raw.id with
            | none => .error (.Protocol "Request missing 'id' field" (some "MISSING_ID") false)
            | some id =>
                match raw.method with
                | none =>
                    .error (.Protocol "Request missing 'method' field"
                      (some "MISSING_METHOD") false)
                | some method => .ok (.Request id method raw.params)
          else if ft = "res" then
            match raw.id with
            | none => .error (.Protocol "Response missing 'id' field" (some "MISSING_ID") false)
            | some id => .ok (.Response id (raw.ok.getD false) raw.payload raw.error)
          else if ft = "event" then
            match raw.event with
            | none => .error (.Protocol "Event missing 'event' field" (some "MISSING_EVENT") false)
            | some event => .ok (.Event event raw.seq raw.payload)
          else
            .error (.Protocol ("Unknown frame type: " ++ ft) (some "UNKNOWN_TYPE") false)

/-! ### protocol.rs: exponential backoff

`calculate_backoff` computes in `f64`; here the arithmetic is idealised
over `ℚ`.  The PRNG sample `rand_simple()` is `(nanos % 1000) / 1000.0`,
passed in as the numerator `m < 1000`. -/

/-- The `as i32` cast of a `u32` value (two's-complement wrap). -/
def u32_as_i32 (x : Nat) : Int :=
  if x % 2 ^ 32 < 2 ^ 31 then ((x % 2 ^ 32 : Nat) : Int)
  else ((x % 2 ^ 32 : Nat) : Int) - 2 ^ 32

/-- The jitter-free delay of `calculate_backoff` (protocol.rs line 460):
`(base_ms * BACKOFF_MULTIPLIER.powi(attempt.saturating_sub(1) as i32)).min(max_ms)`.
`attempt` is a `u32`; `Nat` subtraction models `saturating_sub`. -/
def delayQ (attempt : Nat) : ℚ :=
  min ((5000 : ℚ) * (2 : ℚ) ^ u32_as_i32 (attempt - 1)) 60000

/-- `rand_simple()` (protocol.rs lines 471-477): `(nanos % 1000) / 1000.0`
with the time-dependent `nanos % 1000` passed in as `m`. -/
def rand_simple_val (m : Nat) : ℚ := (m % 1000 : Nat) / 1000

/-- `calculate_backoff` (protocol.rs lines 456-467) with the PRNG sample
made explicit; the `as u64` cast truncates (the value is nonnegative, so
truncation is the floor). -/
def calculate_backoff (attempt : Nat) (m : Nat) : Nat :=
  let delay_ms := delayQ attempt
  let jitter := (rand_simple_val m * (0.2 : ℚ) - (0.1 : ℚ)) * delay_ms
  (Int.floor (max (delay_ms + jitter) (5000 : ℚ))).toNat

/-! ### protocol.rs: queued message -/

/-- Queued message (protocol.rs `QueuedMessage`); `created_at` is a `Nat`
millisecond timestamp. -/
structure QueuedMessage where
  id : String
  json : String
  created_at : Nat
  retry_count : Nat
  max_retries : Nat
deriving DecidableEq

/-- `QueuedMessage::new` (protocol.rs lines 494-501). -/
def QueuedMessage.new (id json : String) (now : Nat) : QueuedMessage :=
  { id := id, json := json, created_at := now, retry_count := 0, max_retries := 3 }

/-- `QueuedMessage::can_retry`. -/
def QueuedMessage.can_retry (msg : QueuedMessage) : Bool :=
  msg.retry_count < msg.max_retries

/-- `QueuedMessage::increment_retry`. -/
def QueuedMessage.increment_retry (msg : QueuedMessage) : QueuedMessage :=
  { msg with retry_count := msg.retry_count + 1 }

/-- `QueuedMessage::is_expired` (protocol.rs lines 513-515): older than
5 minutes (300 000 ms). -/
def QueuedMessage.is_expired (msg : QueuedMessage) (now : Nat) : Bool :=
  300000 < now - msg.created_at

/-! ### gateway.rs: connection negotiation with protocol fallback -/

/-- `str::starts_with`, character-wise. -/
def strStartsWith (s p : String) : Bool :=
  p.data.isPrefixOf s.data

/-- Replace the first occurrence of `pat` in `s` (`str::replacen(pat, rep, 1)`),
character-wise. -/
def replaceFirstChars (s pat rep : List Char) : List Char :=
  match s with
  | [] => []
  | c :: rest =>
      if pat.isPrefixOf (c :: rest) then rep ++ (c :: rest).drop pat.length
      else c :: replaceFirstChars rest pat rep

/-- `url.replacen(pat, rep, 1)` on strings. -/
def strReplaceFirst (s pat rep : String) : String :=
  ⟨replaceFirstChars s.data pat.data rep.data⟩

/-- `get_safe_alternate_url` (gateway.rs lines 532-547): the only alternate
ever produced is the plaintext-to-encrypted upgrade. -/
def get_safe_alternate_url (url : String) : Option String :=
  if strStartsWith url "ws://" then some (strReplaceFirst url "ws://" "wss://")
  else if strStartsWith url "wss://" then none
  else none

/-- Outcome of one raw transport connect attempt inside its 30 s
`tokio::time::timeout` (the established stream value is abstracted away). -/
inductive AttemptOutcome where
  | ok
  | fail (e : GatewayError)
  | timeout

/-- Result of a connection attempt (gateway.rs `ConnectResult`). -/
structure ConnectResult where
  success : Bool
  used_url : String
  protocol_switched : Bool
deriving DecidableEq

/-- `try_connect_with_fallback` (gateway.rs lines 551-751), as a function of
the environment: `needs_manual_tcp` stands for the platform/Tailscale
detection (macOS, or the URL containing ".ts.net"), `tls_build_error` for a
failure of building the native-tls connector on the standard path, and
`first`/`second` for the outcomes of the primary and (when attempted)
fallback connect.  Returns the used URL and the protocol-switched flag. -/
def try_connect_with_fallback (needs_manual_tcp : Bool) (tls_build_error : Option String)
    (url : String) (first second : AttemptOutcome) :
    Except GatewayError (String × Bool) :=
  if needs_manual_tcp then
    match first with
    | .ok => .ok (url, false)
    | .fail e =>
        match get_safe_alternate_url url with
        | some alternate_url =>
            match second with
            | .ok => .ok (alternate_url, true)
            | .fail e2 =>
                .error (.Network
                  ("Unable to connect to Gateway at " ++ url ++ ". Error: " ++ e2.display)
                  true (some BACKOFF_INITIAL_MS))
            | .timeout => .error (.Timeout 30 none)
        | none =>
            .error (.Network
              ("Unable to connect to Gateway at " ++ url ++ ". Error: " ++ e.display)
              true (some BACKOFF_INITIAL_MS))
    | .timeout =>
        match get_safe_alternate_url url with
        | some alternate_url =>
            match second with
            | .ok => .ok (alternate_url, true)
            | _ => .error (.Timeout 60 none)
        | none => .error (.Timeout 30 none)
  else
    match tls_build_error with
    | some e => .error (.Network ("TLS connector error: " ++ e) false none)
    | none =>
        match first with
        | .ok => .ok (url, false)
        | .fail _ =>
            match get_safe_alternate_url url with
            | some alternate_url =>
                match second with
                | .ok => .ok (alternate_url, true)
                | .fail _ =>
                    .error (.Network ("Unable to connect to Gateway at " ++ url)
                      true (some BACKOFF_INITIAL_MS))
                | .timeout => .error (.Timeout 30 none)
            | none =>
                .error (.Network ("Unable to connect to Gateway at " ++ url)
                  true (some BACKOFF_INITIAL_MS))
        | .timeout =>
            match get_safe_alternate_url url with
            | some alternate_url =>
                match second with
                | .ok => .ok (alternate_url, true)
                | _ => .error (.Timeout 60 none)
            | none => .error (.Timeout 30 none)

/-! ### gateway.rs: handshake gating of connect

`connect_internal` creates a oneshot completion slot, spawns the reader,
and blocks on `tokio::time::timeout(30s, handshake_rx)` before returning.
The slot is fulfilled at most once (`Option::take` under a mutex): the
first resolving occurrence wins.  The events the reader can process within
the 30 s window are modelled as a list; an empty resolution means the
timeout elapsed.  (The oneshot sender is kept alive by `connect_internal`
itself, so the channel-closed branch of the wait is unreachable.) -/

/-- Result of the protocol handshake (gateway.rs `HandshakeResult`). -/
inductive HandshakeResult where
  | Success
  | Error (code : String) (message : String)
deriving DecidableEq

/-- What the reader task can observe on the socket. -/
inductive ReaderEvent where
  | frame (f : ValidatedFrame)
  | badFrame
  | pong
  | close (reason : String)
  | wsError (message : String)

/-- The handshake-slot action of `handle_validated_frame`
(gateway.rs lines 1270-1301) for one validated frame: a `res` whose
payload discriminator is `hello-ok` with `ok = true` resolves Success; a
`res` with `ok = false` carrying an error resolves Error; nothing else
touches the slot. -/
def handshakeFrameEffect (f : ValidatedFrame) : Option HandshakeResult :=
  match f with
  | .Response _ ok payload error =>
      let is_connect_response : Bool :=
        (payload.bind fun p => (p.lookup "type").bind Json.asStr) == some "hello-ok"
      if is_connect_response && ok then some .Success
      else if !ok then
        match error with
        | some err => some (.Error err.code err.message)
        | none => none
      else none
  | _ => none

/-- The handshake-slot action of one reader event: validated frames act
through `handshakeFrameEffect`; a close resolves Error
`CONNECTION_CLOSED`, a websocket error resolves Error `WEBSOCKET_ERROR`
(gateway.rs lines 1024-1070). -/
def handshakeEventEffect : ReaderEvent → Option HandshakeResult
  | .frame f => handshakeFrameEffect f
  | .close reason => some (.Error "CONNECTION_CLOSED" reason)
  | .wsError message => some (.Error "WEBSOCKET_ERROR" message)
  | _ => none

/-- First fulfilment of the single-use handshake slot over the events
processed within the handshake window. -/
def resolveHandshake (evs : List ReaderEvent) : Option HandshakeResult :=
  (evs.filterMap handshakeEventEffect).head?

/-- The tail of `connect_internal` (gateway.rs lines 1086-1122): the result
of the 30 s wait on the handshake slot, given the events processed within
the window.  No resolution means the timeout fired. -/
def connectFinish (used_url : String) (protocol_switched : Bool)
    (evs : List ReaderEvent) : Except GatewayError ConnectResult :=
  match resolveHandshake evs with
  | some .Success => .ok ⟨true, used_url, protocol_switched⟩
  | some (.Error code message) => .error (.Gateway code message none false)
  | none => .error (.Timeout 30 none)

/-! ### gateway.rs: the reader task and the stale-session guard

The shared state a reader task can mutate: the connection state, the
sender handle, the global active-run map and the shared pending-request
table (the per-connection health metrics and run-timestamp map the
handler updates are handler-local `Arc`s, not shared state).

The reader loop (gateway.rs lines 975-1075) holds no lock across one
iteration: the staleness check (lines 979-990) reads
`connection_session_id` under a briefly-held mutex and releases it, and
only afterwards does the handling of the message (lines 992-1072)
acquire the state/sender/pending locks to mutate.  The model therefore
splits each iteration into two separate atomic micro-steps — the check
(`recv`) and the handling (`act`) — between which another task's
session-id advance (`supersede`) can interleave. -/

/-- The shared mutable state visible to a reader task. -/
structure SharedState where
  connection_session_id : Nat
  connection_state : ConnectionState
  sender : Option Nat
  pending_requests : List String
  active_runs : List (String × Nat)
deriving DecidableEq

/-- One websocket message as the reader sees it; a text frame is given by
its parse outcome. -/
inductive WsEvent where
  | text (input : Except String Json)
  | pong
  | close (reason : String)
  | wsError (message : String)
  | other

/-- The effect of handling one websocket message on shared state
(gateway.rs lines 992-1072), without the staleness check: a validated
`res` removes its pending request; a close or socket error writes the
connection state, clears the sender and the active runs and stops the
reader.  Returns the new shared state and whether the reader keeps
running.  The handling never rereads the session id. -/
def applyEvent (st : SharedState) (ev : WsEvent) : SharedState × Bool :=
  match ev with
  | .text input =>
      match validate_frame input with
      | .ok (.Response id _ _ _) =>
          ({ st with pending_requests := st.pending_requests.erase id }, true)
      | .ok _ => (st, true)
      | .error _ => (st, true)
  | .pong => (st, true)
  | .close _ =>
      ({ st with connection_state := .Disconnected, sender := none, active_runs := [] }, false)
  | .wsError message =>
      ({ st with connection_state := .Failed message true, sender := none, active_runs := [] },
       false)
  | .other => (st, true)

/-- Control state of the reader between micro-steps: waiting for the next
message, holding a message whose staleness check already passed, or
exited. -/
inductive ReaderPhase where
  | idle
  | checked (ev : WsEvent)
  | done

/-- `u64` modulus for the wrapping session-id increment. -/
def U64_MOD : Nat := 2 ^ 64

/-- The session-id advance performed by every new connect/reconnect
(`session_id.wrapping_add(1)`, gateway.rs lines 843-847 and 1460-1464). -/
def advanceSession (st : SharedState) : SharedState :=
  { st with connection_session_id := (st.connection_session_id + 1) % U64_MOD }

/-- One micro-step of an interleaved execution: the reader receives a
message and runs its staleness check, the reader performs the handling
of the message it has checked, or some other task supersedes the
session. -/
inductive FineStep where
  | recv (ev : WsEvent)
  | act
  | supersede

/-- One micro-step against the reader captured at `captured`.  `recv`
compares the current session id with the captured one (gateway.rs lines
979-990): on mismatch the reader exits without touching shared state;
on match it merely proceeds to the handling.  `act` applies the pending
message's handling, which no longer consults the session id.  A step
that does not apply to the current phase leaves everything unchanged. -/
def fineStep (captured : Nat) :
    ReaderPhase × SharedState → FineStep → ReaderPhase × SharedState
  | (phase, st), .supersede => (phase, advanceSession st)
  | (.idle, st), .recv ev =>
      if st.connection_session_id ≠ captured then (.done, st) else (.checked ev, st)
  | (.checked ev, st), .act =>
      ((if (applyEvent st ev).2 then .idle else .done), (applyEvent st ev).1)
  | (.done, st), .recv _ => (.done, st)
  | (.idle, st), .act => (.idle, st)
  | (.checked ev, st), .recv _ => (.checked ev, st)
  | (.done, st), .act => (.done, st)

/-- Run an interleaved micro-step trace. -/
def runFine (captured : Nat) (ps : ReaderPhase × SharedState) :
    List FineStep → ReaderPhase × SharedState
  | [] => ps
  | s :: rest => runFine captured (fineStep captured ps s) rest

/-- The same trace with every reader micro-step discarded: only the
supersessions act on the state. -/
def externalOnly : SharedState → List FineStep → SharedState
  | st, [] => st
  | st, .supersede :: rest => externalOnly (advanceSession st) rest
  | st, .recv _ :: rest => externalOnly st rest
  | st, .act :: rest => externalOnly st rest

/-! ### gateway.rs: session state, disconnect, send, drain -/

/-- Stored credentials for reconnection (gateway.rs `StoredCredentials`). -/
structure StoredCredentials where
  url : String
  token : String
deriving DecidableEq

/-- Pending request entry (gateway.rs `PendingRequest`); the oneshot
completion sender is abstracted away; times are `Nat` milliseconds. -/
structure PendingRequest where
  created_at : Nat
  timeout : Nat
deriving DecidableEq

/-- The session's shared mutable core (gateway.rs `GatewayStateInner`).
Maps and sets are association/insertion lists. -/
structure GatewayStateInner where
  connection_state : ConnectionState
  sender : Option Nat
  pending_requests : List (String × PendingRequest)
  stored_credentials : Option StoredCredentials
  message_queue : List QueuedMessage
  processed_ids : List String
  health_metrics : HealthMetrics
  shutdown : Bool
  reconnect_attempt : Nat
  active_runs : List (String × Nat)
  connection_session_id : Nat
deriving DecidableEq

/-- `disconnect` (gateway.rs lines 1556-1564): sets the shutdown flag,
clears the sender, transitions to Disconnected, empties the
pending-request table and the active-run map, and resets health metrics.
It touches neither the message queue nor the processed-ids set. -/
def disconnect (st : GatewayStateInner) : GatewayStateInner :=
  { st with
    shutdown := true
    sender := none
    connection_state := .Disconnected
    pending_requests := []
    active_runs := []
    health_metrics := st.health_metrics.reset }

/-- `get_connection_status` (gateway.rs lines 1663-1665). -/
def get_connection_status (st : GatewayStateInner) : Bool :=
  st.connection_state.is_connected

/-- `MAX_QUEUE_SIZE` (gateway.rs line 1632). -/
def MAX_QUEUE_SIZE : Nat := 100

/-- The `while queue.len() >= MAX_QUEUE_SIZE { queue.pop_front(); }` loop
of `send_message` (gateway.rs lines 1633-1635). -/
def popWhileFull (queue : List QueuedMessage) : List QueuedMessage :=
  if queue.length ≥ MAX_QUEUE_SIZE then popWhileFull queue.tail else queue
termination_by queue.length
decreasing_by
  rw [List.length_tail]
  simp only [MAX_QUEUE_SIZE] at *
  omega

/-- `HashSet::insert` on an insertion-list set. -/
def insertId (ids : List String) (id : String) : List String :=
  if ids.contains id then ids else ids ++ [id]

/-- `send_message` (gateway.rs lines 1568-1659) after the request has been
built: the generated uuid `request_id` and the serialized request `json`
are parameters (as are the clock and the channel-send outcome; the
`SendError` display string is abstracted).  Returns the command result,
the new state, and the list of payloads handed to the writer channel. -/
def send_message (st : GatewayStateInner) (request_id json : String) (now : Nat)
    (send_ok : Bool) : Except String String × GatewayStateInner × List String :=
  match st.connection_state with
  | .Reconnecting _ _ _ _ =>
      let queue := popWhileFull st.message_queue
      (.ok request_id,
       { st with message_queue := queue ++ [QueuedMessage.new request_id json now] }, [])
  | _ =>
      match st.sender with
      | none => (.error "Not connected", st, [])
      | some _ =>
          if send_ok then
            (.ok request_id,
             { st with processed_ids := insertId st.processed_ids request_id }, [json])
          else (.error "send error", st, [])

/-- Weight of one queued message for the drain-loop termination measure. -/
def msgWeight (msg : QueuedMessage) : Nat :=
  msg.max_retries + 1 - msg.retry_count

/-- Termination measure of the drain loop. -/
def drainMeasure (queue : List QueuedMessage) : Nat :=
  queue.length + (queue.map msgWeight).sum

/-- The `while let Some(msg) = queue.pop_front()` loop of
`drain_message_queue` (gateway.rs lines 1515-1538): pops in FIFO order,
skips expired and already-processed messages, records sent ids in the
dedup set, and requeues a failed send while the message can retry.
`send_ok k` is the outcome of the k-th channel send.  The queue always
ends empty; returns the final dedup set and the sent payloads. -/
def drainGo (send_ok : Nat → Bool) (now : Nat) (k : Nat) (queue : List QueuedMessage)
    (processed : List String) (sent : List String) : List String × List String :=
  match queue with
  | [] => (processed, sent)
  | msg :: rest =>
      if msg.is_expired now then drainGo send_ok now k rest processed sent
      else if processed.contains msg.id then drainGo send_ok now k rest processed sent
      else if send_ok k then
        drainGo send_ok now (k + 1) rest (insertId processed msg.id) (sent ++ [msg.json])
      else if h : msg.can_retry then
        drainGo send_ok now (k + 1) (rest ++ [msg.increment_retry]) processed sent
      else drainGo send_ok now (k + 1) rest processed sent
termination_by drainMeasure queue
decreasing_by
  all_goals simp only [drainMeasure, QueuedMessage.increment_retry, msgWeight,
    QueuedMessage.can_retry, decide_eq_true_eq, List.length_append, List.length_cons,
    List.length_nil, List.map_append, List.map_cons, List.map_nil, List.sum_append,
    List.sum_cons, List.sum_nil] at *
  all_goals omega

/-- The dedup-set compaction at the end of `drain_message_queue`
(gateway.rs lines 1541-1550): when more than 1000 ids are stored, the
first `len - 1000` ids of the set's iteration order (modelled as list
order) are removed one by one. -/
def prune_processed (processed : List String) : List String :=
  if processed.length > 1000 then
    (processed.take (processed.length - 1000)).foldl (fun acc id => acc.erase id) processed
  else processed

/-- `drain_message_queue` (gateway.rs lines 1509-1552): a no-op without a
live sender; otherwise drains the queue and compacts the dedup set. -/
def drain_message_queue (st : GatewayStateInner) (send_ok : Nat → Bool) (now : Nat) :
    GatewayStateInner × List String :=
  match st.sender with
  | none => (st, [])
  | some _ =>
      let out := drainGo send_ok now 0 st.message_queue st.processed_ids []
      ({ st with message_queue := [], processed_ids := prune_processed out.1 }, out.2)

/-! ### gateway.rs: the reconnection loop -/

/-- `u32` modulus for the wrapping attempt counter. -/
def U32_MOD : Nat := 2 ^ 32

/-- How one pass of the reconnection loop ends. -/
inductive LoopEnd where
  | gaveUp
  | connected
  | authFailed
  | stoppedShutdown
  | noCredentials
  | outOfFuel
deriving DecidableEq

/-- The loop state mutated by `start_reconnection_loop`. -/
structure ReconnState where
  reconnect_attempt : Nat
  connection_state : ConnectionState
  connection_session_id : Nat
deriving DecidableEq

/-- Result of running the reconnection loop: how it ended, the final loop
state, every connection-state write in order, and the number of
`connect_internal` calls made. -/
structure LoopOut where
  outcome : LoopEnd
  final : ReconnState
  states : List ConnectionState
  attempts : Nat
deriving DecidableEq

/-- The loop body of `start_reconnection_loop` (gateway.rs lines
1399-1506), fuel-indexed (the Rust loop is unbounded; every theorem below
shows the needed fuel suffices).  The environment is explicit:
`connect_outcome n` is the result of the `connect_internal` call of
attempt `n` (`none` = success), `jitter n` the PRNG numerator of that
attempt's backoff, `shutdown` the (held fixed) shutdown flag and `creds`
the stored credentials.  The backoff sleep itself has no state effect. -/
def reconnectLoopGo (connect_outcome : Nat → Option GatewayError) (jitter : Nat → Nat)
    (shutdown : Bool) (creds : Option StoredCredentials) :
    Nat → ReconnState → List ConnectionState → Nat → LoopOut
  | 0, st, states, attempts => ⟨.outOfFuel, st, states, attempts⟩
  | fuel + 1, st, states, attempts =>
      let attempt := (st.reconnect_attempt + 1) % U32_MOD
      let st := { st with reconnect_attempt := attempt }
      if attempt > MAX_RECONNECT_ATTEMPTS then
        let fs := ConnectionState.Failed
          ("Failed to reconnect after " ++ toString MAX_RECONNECT_ATTEMPTS ++ " attempts") true
        ⟨.gaveUp, { st with connection_state := fs }, states ++ [fs], attempts⟩
      else if shutdown then ⟨.stoppedShutdown, st, states, attempts⟩
      else
        let backoff := calculate_backoff attempt (jitter attempt)
        let rs := ConnectionState.Reconnecting attempt MAX_RECONNECT_ATTEMPTS backoff
          "Connection lost"
        let st := { st with connection_state := rs }
        let states := states ++ [rs]
        if shutdown then ⟨.stoppedShutdown, st, states, attempts⟩
        else
          match creds with
          | none => ⟨.noCredentials, st, states, attempts⟩
          | some _ =>
              let st := { st with
                connection_session_id := (st.connection_session_id + 1) % U64_MOD }
              match connect_outcome attempt with
              | none =>
                  let st := { st with
                    reconnect_attempt := 0
                    connection_state := .Connected none }
                  ⟨.connected, st, states ++ [.Connected none], attempts + 1⟩
              | some e =>
                  if e.requires_reauth then
                    let fs := ConnectionState.Failed e.user_message false
                    ⟨.authFailed, { st with connection_state := fs }, states ++ [fs],
                     attempts + 1⟩
                  else reconnectLoopGo connect_outcome jitter shutdown creds fuel st states
                    (attempts + 1)

/-- A concrete dedup set with 1001 distinct ids (test vector for the
drain-time compaction). -/
def manyIds : List String := (List.range 1001).map (fun n => toString n)

/-- A concrete `hello-ok` response event (test vector for the handshake). -/
def helloEvent : ReaderEvent :=
  .frame (.Response "c1" true
    (some (Json.obj [("type", Json.str "hello-ok"), ("protocol", Json.num 3)])) none)

/-- A concrete shared state whose session id differs from a reader's
captured id 0 (test vector for the stale-handler guard). -/
def staleState : SharedState :=
  { connection_session_id := 5
    connection_state := .Connected none
    sender := some 7
    pending_requests := ["p"]
    active_runs := [("r", 3)] }

/-- A concrete interleaved micro-step trace (test vector for the
stale-handler guard): checks and handlings around supersessions. -/
def staleTrace : List FineStep :=
  [.recv (.text (.error "bad json")), .act, .supersede, .recv (.close "gone"),
   .recv (.text (.ok (Json.obj [("type", Json.str "res"), ("id", Json.str "p")]))), .act]

/-- A concrete shared state matching a reader's captured id 1 (test
vector for the check-to-handling race). -/
def raceState : SharedState :=
  { connection_session_id := 1
    connection_state := .Connected none
    sender := some 5
    pending_requests := ["p"]
    active_runs := [("r", 2)] }

/-- The racing trace: the reader's staleness check passes, a supersession
lands, and only then does the reader handle the already-checked close. -/
def raceTrace : List FineStep := [.recv (.close "bye"), .supersede, .act]

/-- A concrete connected session whose dedup set already exceeds the
compaction bound (test vector). -/
def c9State : GatewayStateInner :=
  { connection_state := .Connected none
    sender := some 1
    pending_requests := []
    stored_credentials := none
    message_queue := []
    processed_ids := manyIds
    health_metrics := HealthMetrics.default
    shutdown := false
    reconnect_attempt := 0
    active_runs := []
    connection_session_id := 1 }

/-! ## Helper lemmas -/

theorem popWhileFull_eq_drop :
    ∀ q : List QueuedMessage, popWhileFull q = q.drop (q.length - (MAX_QUEUE_SIZE - 1)) := by
  suffices H : ∀ (n : Nat) (q : List QueuedMessage), q.length = n →
      popWhileFull q = q.drop (q.length - (MAX_QUEUE_SIZE - 1)) from
    fun q => H q.length q rfl
  intro n
  induction n using Nat.strong_induction_on with
  | _ n ih =>
    intro q hn
    rw [popWhileFull]
    split
    next h =>
      simp only [MAX_QUEUE_SIZE] at h
      rw [ih q.tail.length (by rw [List.length_tail]; omega) q.tail rfl]
      rw [← List.drop_one, List.drop_drop, List.length_drop]
      congr 1
      simp only [MAX_QUEUE_SIZE]
      omega
    next h =>
      simp only [MAX_QUEUE_SIZE] at h ⊢
      have h0 : q.length - 99 = 0 := by omega
      rw [h0, List.drop_zero]

theorem length_popWhileFull_le (q : List QueuedMessage) :
    (popWhileFull q).length ≤ MAX_QUEUE_SIZE - 1 := by
  rw [popWhileFull_eq_drop, List.length_drop]
  simp only [MAX_QUEUE_SIZE]
  omega

theorem mem_insertId (ids : List String) (id : String) : id ∈ insertId ids id := by
  unfold insertId
  split
  next h => exact List.mem_of_elem_eq_true h
  next => simp

theorem foldl_erase_take :
    ∀ (p : List String) (k : Nat),
      (p.take k).foldl (fun acc id => acc.erase id) p = p.drop k := by
  intro p
  induction p with
  | nil => intro k; simp
  | cons a rest ih =>
      intro k
      cases k with
      | zero => simp
      | succ k =>
          simp only [List.take_succ_cons, List.foldl_cons, List.erase_cons_head,
            List.drop_succ_cons]
          exact ih k

theorem prune_processed_of_le (p : List String) (h : ¬ 1000 < p.length) :
    prune_processed p = p := by
  unfold prune_processed
  rw [if_neg h]

theorem prune_processed_of_gt (p : List String) (h : 1000 < p.length) :
    prune_processed p = p.drop (p.length - 1000) ∧ (prune_processed p).length = 1000 := by
  unfold prune_processed
  rw [if_pos h, foldl_erase_take]
  refine ⟨rfl, ?_⟩
  rw [List.length_drop]
  omega

theorem replaceFirstChars_of_isPrefixOf (s pat rep : List Char) (hne : s ≠ [])
    (h : pat.isPrefixOf s = true) :
    replaceFirstChars s pat rep = rep ++ s.drop pat.length := by
  cases s with
  | nil => exact absurd rfl hne
  | cons c rest =>
      unfold replaceFirstChars
      rw [if_pos h]

theorem strStartsWith_exists_data (s p : String) (h : strStartsWith s p = true) :
    ∃ t, s.data = p.data ++ t := by
  unfold strStartsWith at h
  obtain ⟨t, ht⟩ := List.isPrefixOf_iff_prefix.1 h
  exact ⟨t, ht.symm⟩

theorem not_startsWith_ws_of_wss (url : String) (h : strStartsWith url "wss://" = true) :
    strStartsWith url "ws://" = false := by
  by_contra hws
  rw [Bool.not_eq_false] at hws
  unfold strStartsWith at h hws
  have h1 := List.isPrefixOf_iff_prefix.1 h
  have h2 := List.isPrefixOf_iff_prefix.1 hws
  have hle : ("ws://".data).length ≤ ("wss://".data).length := by decide
  have hp : "ws://".data <+: "wss://".data := List.prefix_of_prefix_length_le h2 h1 hle
  have hb : "ws://".data.isPrefixOf "wss://".data = true := List.isPrefixOf_iff_prefix.2 hp
  exact absurd hb (by decide)

theorem gsafe_none_of_wss (url : String) (h : strStartsWith url "wss://" = true) :
    get_safe_alternate_url url = none := by
  unfold get_safe_alternate_url
  simp [not_startsWith_ws_of_wss url h, h]

theorem gsafe_some_of_ws (url : String) (h : strStartsWith url "ws://" = true) :
    get_safe_alternate_url url = some (strReplaceFirst url "ws://" "wss://") := by
  unfold get_safe_alternate_url
  simp [h]

theorem strReplaceFirst_ws_data (url : String) (h : strStartsWith url "ws://" = true) :
    (strReplaceFirst url "ws://" "wss://").data = "wss://".data ++ url.data.drop 5 ∧
    strStartsWith (strReplaceFirst url "ws://" "wss://") "wss://" = true := by
  obtain ⟨t, ht⟩ := strStartsWith_exists_data url "ws://" h
  have hne : url.data ≠ [] := by
    intro hnil
    rw [ht] at hnil
    exact absurd (List.append_eq_nil.1 hnil).1 (by decide)
  have hpre : "ws://".data.isPrefixOf url.data = true :=
    List.isPrefixOf_iff_prefix.2 ⟨t, ht.symm⟩
  have hdata : (strReplaceFirst url "ws://" "wss://").data =
      "wss://".data ++ url.data.drop 5 := by
    show replaceFirstChars url.data "ws://".data "wss://".data = _
    rw [replaceFirstChars_of_isPrefixOf url.data "ws://".data "wss://".data hne hpre,
      show ("ws://".data).length = 5 from by decide]
  refine ⟨hdata, ?_⟩
  unfold strStartsWith
  refine List.isPrefixOf_iff_prefix.2 ?_
  rw [hdata]
  exact List.prefix_append _ _

theorem prune_processed_length_le (p : List String) :
    (prune_processed p).length ≤ max 1000 p.length := by
  by_cases h : 1000 < p.length
  · rw [(prune_processed_of_gt p h).2]
    omega
  · rw [prune_processed_of_le p h]
    omega

theorem delayQ_pos (n : Nat) : 0 < delayQ n := by
  unfold delayQ
  exact lt_min (by positivity) (by norm_num)

theorem delayQ_le_max (n : Nat) : delayQ n ≤ 60000 := min_le_right _ _

theorem jitter_factor_abs_le (m : Nat) :
    |rand_simple_val m * (0.2 : ℚ) - 0.1| ≤ 1 / 10 := by
  unfold rand_simple_val
  have h0 : (0 : ℚ) ≤ ((m % 1000 : Nat) : ℚ) / 1000 := by positivity
  have h999 : ((m % 1000 : Nat) : ℚ) / 1000 ≤ 999 / 1000 := by
    have hlt : (m % 1000 : Nat) ≤ 999 := by omega
    have : ((m % 1000 : Nat) : ℚ) ≤ 999 := by exact_mod_cast hlt
    linarith
  rw [abs_le]
  constructor <;> [linarith; linarith]

theorem jitter_abs_le (m : Nat) (d : ℚ) (hd : 0 ≤ d) :
    |(rand_simple_val m * (0.2 : ℚ) - 0.1) * d| ≤ d / 10 := by
  rw [abs_mul, abs_of_nonneg hd]
  calc |rand_simple_val m * (0.2 : ℚ) - 0.1| * d ≤ (1 / 10) * d :=
        mul_le_mul_of_nonneg_right (jitter_factor_abs_le m) hd
  _ = d / 10 := by ring

theorem delayQ_in_range (n : Nat) (h1 : 1 ≤ n) (h2 : n ≤ 2 ^ 31) :
    delayQ n = min ((5000 : ℚ) * 2 ^ (n - 1)) 60000 := by
  unfold delayQ u32_as_i32
  have hm : (n - 1) % 2 ^ 32 = n - 1 := Nat.mod_eq_of_lt (by omega)
  rw [hm, if_pos (by omega)]
  rw [zpow_natCast]

/-- The reconnection-state sequence written by attempts `c + 1 … 10` of
the loop, followed by the give-up state. -/
def reconnTrace (jit : Nat → Nat) (k : Nat) : List ConnectionState :=
  (List.range' (10 - k + 1) k).map (fun a =>
    ConnectionState.Reconnecting a 10 (calculate_backoff a (jit a)) "Connection lost") ++
  [ConnectionState.Failed "Failed to reconnect after 10 attempts" true]

theorem reconnectLoopGo_all_fail (e : Nat → GatewayError) (jit : Nat → Nat)
    (creds : StoredCredentials) (h2 : ∀ n, (e n).requires_reauth = false) :
    ∀ (k : Nat), k ≤ 10 → ∀ (fuel : Nat), k + 1 ≤ fuel →
      ∀ (st : ReconnState), st.reconnect_attempt = 10 - k →
        st.connection_session_id < U64_MOD →
      ∀ (states : List ConnectionState) (attempts : Nat),
      reconnectLoopGo (fun n => some (e n)) jit false (some creds) fuel st states attempts =
        ⟨.gaveUp,
         { reconnect_attempt := 11,
           connection_state := .Failed "Failed to reconnect after 10 attempts" true,
           connection_session_id := (st.connection_session_id + k) % U64_MOD },
         states ++ reconnTrace jit k,
         attempts + k⟩ := by
  intro k
  induction k with
  | zero =>
      intro _ fuel hfuel st hc hsid states attempts
      cases fuel with
      | zero => exact absurd hfuel (by omega)
      | succ f =>
          simp only [reconnectLoopGo, hc, reconnTrace]
          norm_num [U32_MOD, MAX_RECONNECT_ATTEMPTS, List.range']
          rw [Nat.mod_eq_of_lt hsid]
          exact ⟨⟨rfl, rfl⟩, rfl⟩
  | succ k ih =>
      intro hk fuel hfuel st hc hsid states attempts
      cases fuel with
      | zero => exact absurd hfuel (by omega)
      | succ f =>
          have hatt : (st.reconnect_attempt + 1) % U32_MOD = 10 - k := by
            rw [hc]
            rw [Nat.mod_eq_of_lt (by simp only [U32_MOD]; omega)]
            omega
          simp only [reconnectLoopGo, hatt]
          rw [if_neg (by simp only [MAX_RECONNECT_ATTEMPTS]; omega)]
          simp only [Bool.false_eq_true, if_false]
          rw [h2 (10 - k), if_neg (by simp)]
          rw [ih (by omega) f (by omega)
            ⟨10 - k,
             .Reconnecting (10 - k) MAX_RECONNECT_ATTEMPTS
               (calculate_backoff (10 - k) (jit (10 - k))) "Connection lost",
             (st.connection_session_id + 1) % U64_MOD⟩
            rfl (Nat.mod_lt _ (by simp only [U64_MOD]; omega)) _ _]
          have hsid2 : ((st.connection_session_id + 1) % U64_MOD + k) % U64_MOD =
              (st.connection_session_id + (k + 1)) % U64_MOD := by
            rw [Nat.mod_add_mod]
            congr 1
            omega
          have hrange : (10 - (k + 1) + 1) = 10 - k := by omega
          simp only [hsid2, reconnTrace, hrange, List.range'_succ]
          simp [List.append_assoc, Nat.add_assoc, Nat.add_comm 1 k, MAX_RECONNECT_ATTEMPTS]

/-! ## Claim theorems -/

/-- Claim C6 (amended): after `disconnect()`, the connection status reads
false, the pending-request table and the active-run map are empty, the
sender is cleared, the health metrics are reset and the shutdown flag is
set; a second `disconnect()` changes nothing.  The outbound message queue
and the processed-ids dedup set are NOT cleared: they keep exactly their
previous contents. -/
theorem c6_disconnect_postcondition (st : GatewayStateInner) :
    get_connection_status (disconnect st) = false ∧
    (disconnect st).pending_requests = [] ∧
    (disconnect st).active_runs = [] ∧
    (disconnect st).sender = none ∧
    (disconnect st).health_metrics = HealthMetrics.default ∧
    (disconnect st).shutdown = true ∧
    (disconnect st).connection_state = .Disconnected ∧
    (disconnect st).message_queue = st.message_queue ∧
    (disconnect st).processed_ids = st.processed_ids ∧
    disconnect (disconnect st) = disconnect st :=
  ⟨rfl, rfl, rfl, rfl, rfl, rfl, rfl, rfl, rfl, rfl⟩

/-- Claim C6, counterexample to the claim as stated: `disconnect` leaves
the outbound message queue and the processed-ids set untouched, so after
disconnecting a state holding one queued message and one processed id,
neither is empty. -/
theorem c6_counterexample :
    let st : GatewayStateInner :=
      { connection_state := .Connected none
        sender := some 1
        pending_requests := [("r1", { created_at := 0, timeout := 30000 })]
        stored_credentials := none
        message_queue := [QueuedMessage.new "m1" "payload" 0]
        processed_ids := ["old-id"]
        health_metrics := HealthMetrics.default
        shutdown := false
        reconnect_attempt := 0
        active_runs := [("run1", 0)]
        connection_session_id := 1 }
    (disconnect st).message_queue ≠ [] ∧ (disconnect st).processed_ids ≠ [] := by
  decide

/-- Claim C7: `validate_frame` is total: every input either validates into
one of the three frame kinds or yields a `Protocol` error with a code and
`retryable = false`; in particular a syntactically malformed input, a
frame missing the `type` discriminator, and a frame with an unknown kind
tag are rejected with the corresponding non-retryable Protocol errors. -/
theorem c7_validate_frame_total_nonretryable :
    (∀ input : Except String Json,
      (∃ f, validate_frame input = .ok f) ∨
      (∃ m c, validate_frame input = .error (.Protocol m (some c) false))) ∧
    (∀ e : String, validate_frame (.error e) =
      .error (.Protocol ("Invalid JSON: " ++ e) (some "INVALID_JSON") false)) ∧
    (∀ (j : Json) (raw : RawFrame), rawFrameFromJson j = .ok raw → raw.frame_type = none →
      validate_frame (.ok j) =
        .error (.Protocol "Missing 'type' field" (some "MISSING_TYPE") false)) ∧
    (∀ (j : Json) (raw : RawFrame) (ft : String), rawFrameFromJson j = .ok raw →
      raw.frame_type = some ft → ft ≠ "req" → ft ≠ "res" → ft ≠ "event" →
      validate_frame (.ok j) =
        .error (.Protocol ("Unknown frame type: " ++ ft) (some "UNKNOWN_TYPE") false)) := by
  refine ⟨?_, ?_, ?_, ?_⟩
  · intro input
    unfold validate_frame
    repeat' split
    all_goals first
      | exact .inl ⟨_, rfl⟩
      | exact .inr ⟨_, _, rfl⟩
  · intro e
    rfl
  · intro j raw hp hft
    unfold validate_frame parseRawFrame
    simp only [Except.bind, hp, hft]
  · intro j raw ft hp hft h1 h2 h3
    unfold validate_frame parseRawFrame
    simp only [Except.bind, hp, hft, if_neg h1, if_neg h2, if_neg h3]

/-- Claim C7, witness: the theorem applied at a malformed input, an input
missing the discriminator, and an input with an unknown kind tag. -/
theorem c7_witness :
    validate_frame (.error "expected value") =
      .error (.Protocol "Invalid JSON: expected value" (some "INVALID_JSON") false) ∧
    validate_frame (.ok (Json.obj [])) =
      .error (.Protocol "Missing 'type' field" (some "MISSING_TYPE") false) ∧
    validate_frame (.ok (Json.obj [("type", Json.str "zzz")])) =
      .error (.Protocol ("Unknown frame type: " ++ "zzz") (some "UNKNOWN_TYPE") false) :=
  ⟨c7_validate_frame_total_nonretryable.2.1 "expected value",
   c7_validate_frame_total_nonretryable.2.2.1 (Json.obj [])
     { frame_type := none, id := none, method := none, params := none, ok := none,
       payload := none, error := none, event := none, seq := none } rfl rfl,
   c7_validate_frame_total_nonretryable.2.2.2 (Json.obj [("type", Json.str "zzz")])
     { frame_type := some "zzz", id := none, method := none, params := none, ok := none,
       payload := none, error := none, event := none, seq := none } "zzz" rfl rfl
     (by decide) (by decide) (by decide)⟩

/-- Claim C10 (amended): for every input that is valid JSON and whose
present fields are well-typed for the raw frame (`serde` deserialization
succeeds), with `type = "res"`, an `id` present and no `ok` field,
`validate_frame` does not reject: it returns `Response` with `ok = false`
(missing `ok` is defaulted, not treated as a missing required field). -/
theorem c10_res_missing_ok_defaults_false :
    ∀ (input : Except String Json) (raw : RawFrame) (id : String),
      parseRawFrame input = .ok raw →
      raw.frame_type = some "res" →
      raw.id = some id →
      raw.ok = none →
      validate_frame input = .ok (.Response id false raw.payload raw.error) := by
  intro input raw id hp hft hid hok
  unfold validate_frame
  simp only [hp, hft, hid, hok]
  rfl

/-- Claim C10, witness: a `res` frame with an `id` and no `ok` field
validates to `Response` with `ok = false`. -/
theorem c10_witness :
    validate_frame (.ok (Json.obj [("type", Json.str "res"), ("id", Json.str "abc")])) =
      .ok (.Response "abc" false none none) :=
  c10_res_missing_ok_defaults_false _
    { frame_type := some "res", id := some "abc", method := none, params := none, ok := none,
      payload := none, error := none, event := none, seq := none } "abc" rfl rfl rfl rfl

/-- Claim C10, counterexample to the claim as stated: an input that is
valid JSON with `type:"res"`, a present `id` and no `ok` field is
nevertheless rejected when another optional field is ill-typed (here a
string `seq`), because the whole serde deserialization fails first. -/
theorem c10_counterexample :
    validate_frame (.ok (Json.obj [("type", Json.str "res"), ("id", Json.str "x"),
        ("seq", Json.str "bad")])) =
      .error (.Protocol "Invalid JSON: invalid type for field seq" (some "INVALID_JSON") false) ∧
    ∀ f, validate_frame (.ok (Json.obj [("type", Json.str "res"), ("id", Json.str "x"),
        ("seq", Json.str "bad")])) ≠ .ok f := by
  refine ⟨rfl, ?_⟩
  intro f h
  rw [show validate_frame (.ok (Json.obj [("type", Json.str "res"), ("id", Json.str "x"),
        ("seq", Json.str "bad")])) =
      .error (.Protocol "Invalid JSON: invalid type for field seq" (some "INVALID_JSON") false)
    from rfl] at h
  exact Except.noConfusion h

/-- Claim C8: a `send_message` call made while the connection state is
Reconnecting returns the request id immediately, hands nothing to the
writer channel, enqueues the message at the back after popping oldest
entries while the queue is full, and leaves the queue no longer than
`MAX_QUEUE_SIZE` (100); the pop loop drops exactly the oldest entries
(the queue becomes a suffix of the old queue), and a drain never grows
the queue. -/
theorem c8_send_while_reconnecting_bounded :
    (∀ (st : GatewayStateInner) (request_id json : String) (now : Nat) (send_ok : Bool)
       (a ma nr : Nat) (r : String),
       st.connection_state = .Reconnecting a ma nr r →
       (send_message st request_id json now send_ok).1 = .ok request_id ∧
       (send_message st request_id json now send_ok).2.2 = [] ∧
       (send_message st request_id json now send_ok).2.1.message_queue =
         popWhileFull st.message_queue ++ [QueuedMessage.new request_id json now] ∧
       (send_message st request_id json now send_ok).2.1.message_queue.length ≤
         MAX_QUEUE_SIZE) ∧
    (∀ q : List QueuedMessage,
       popWhileFull q = q.drop (q.length - (MAX_QUEUE_SIZE - 1))) ∧
    (∀ (st : GatewayStateInner) (send_ok : Nat → Bool) (now : Nat),
       (drain_message_queue st send_ok now).1.message_queue.length ≤
         st.message_queue.length) := by
  refine ⟨?_, popWhileFull_eq_drop, ?_⟩
  · intro st request_id json now send_ok a ma nr r h
    simp only [send_message, h]
    refine ⟨trivial, trivial, trivial, ?_⟩
    rw [List.length_append]
    have hb := length_popWhileFull_le st.message_queue
    simp only [MAX_QUEUE_SIZE, List.length_cons, List.length_nil] at *
    omega
  · intro st send_ok now
    unfold drain_message_queue
    cases hs : st.sender with
    | none => simp
    | some c => simp

/-- Claim C8, witness: the theorem applied at a concrete reconnecting
state. -/
theorem c8_witness :
    let st0 : GatewayStateInner :=
      { connection_state := .Reconnecting 1 10 5000 "Connection lost"
        sender := none
        pending_requests := []
        stored_credentials := none
        message_queue := [QueuedMessage.new "q1" "pay1" 0]
        processed_ids := []
        health_metrics := HealthMetrics.default
        shutdown := false
        reconnect_attempt := 1
        active_runs := []
        connection_session_id := 2 }
    (send_message st0 "rid" "pay2" 5 false).1 = .ok "rid" ∧
    (send_message st0 "rid" "pay2" 5 false).2.2 = [] ∧
    (send_message st0 "rid" "pay2" 5 false).2.1.message_queue =
      popWhileFull st0.message_queue ++ [QueuedMessage.new "rid" "pay2" 5] ∧
    (send_message st0 "rid" "pay2" 5 false).2.1.message_queue.length ≤ MAX_QUEUE_SIZE :=
  c8_send_while_reconnecting_bounded.1 _ "rid" "pay2" 5 false 1 10 5000 "Connection lost" rfl

/-- Claim C9 (amended): every successful direct send records the message
id in the processed-ids dedup set, with no bound enforced at send time;
the set is compacted only during queue drains, and the compaction is a
prune-to-bound, not a clear-when-full: when more than 1000 ids are held
it removes ids one by one (in set-iteration order) until exactly 1000
remain, and otherwise leaves the set untouched; hence after any drain
the set holds at most max 1000 (its previous size) ids and membership
never grows without bound across drains. -/
theorem c9_dedup_prune_policy :
    (∀ (st : GatewayStateInner) (rid json : String) (now : Nat) (c : Nat),
       (∀ a ma nr r, st.connection_state ≠ .Reconnecting a ma nr r) →
       st.sender = some c →
       (send_message st rid json now true).2.1.processed_ids =
         insertId st.processed_ids rid ∧
       rid ∈ (send_message st rid json now true).2.1.processed_ids ∧
       (send_message st rid json now true).1 = .ok rid) ∧
    (∀ p : List String, ¬ 1000 < p.length → prune_processed p = p) ∧
    (∀ p : List String, 1000 < p.length →
       prune_processed p = p.drop (p.length - 1000) ∧ (prune_processed p).length = 1000) ∧
    (∀ (st : GatewayStateInner) (send_ok : Nat → Bool) (now : Nat),
       (drain_message_queue st send_ok now).1.processed_ids.length ≤
         max 1000 st.processed_ids.length) := by
  refine ⟨?_, prune_processed_of_le, prune_processed_of_gt, ?_⟩
  · intro st rid json now c h hs
    cases hcs : st.connection_state
    case Reconnecting a ma nr r => exact absurd hcs (h a ma nr r)
    all_goals
      simp only [send_message, hcs, hs, if_true]
      exact ⟨trivial, mem_insertId _ _, trivial⟩
  · intro st send_ok now
    unfold drain_message_queue
    cases hs : st.sender with
    | none =>
        simp only
        exact le_max_right _ _
    | some c =>
        simp only
        by_cases hgt : 1000 < (drainGo send_ok now 0 st.message_queue st.processed_ids []).1.length
        · rw [(prune_processed_of_gt _ hgt).2]
          exact le_max_left _ _
        · rw [prune_processed_of_le _ hgt]
          exact le_trans (by omega) (le_max_left _ _)

set_option maxRecDepth 100000 in
/-- Claim C9, witness: the theorem applied at a concrete connected state
and at concrete small and oversized dedup sets. -/
theorem c9_witness :
    let st1 : GatewayStateInner :=
      { connection_state := .Connected none
        sender := some 1
        pending_requests := []
        stored_credentials := none
        message_queue := []
        processed_ids := ["a"]
        health_metrics := HealthMetrics.default
        shutdown := false
        reconnect_attempt := 0
        active_runs := []
        connection_session_id := 1 }
    ((send_message st1 "rid" "pay" 0 true).2.1.processed_ids =
        insertId st1.processed_ids "rid" ∧
      "rid" ∈ (send_message st1 "rid" "pay" 0 true).2.1.processed_ids ∧
      (send_message st1 "rid" "pay" 0 true).1 = .ok "rid") ∧
    prune_processed ["a"] = ["a"] ∧
    (prune_processed manyIds = manyIds.drop 1 ∧ (prune_processed manyIds).length = 1000) :=
  ⟨c9_dedup_prune_policy.1 _ "rid" "pay" 0 1
      (fun a ma nr r h => ConnectionState.noConfusion h) rfl,
   c9_dedup_prune_policy.2.1 ["a"] (by decide),
   c9_dedup_prune_policy.2.2.1 manyIds (by simp [manyIds])⟩

set_option maxRecDepth 100000 in
/-- Claim C9, counterexample to the claim as stated: the dedup set is not
cleared entirely when it exceeds the bound — a drain over a set of 1001
ids leaves 1000 of them in place (prune-to-bound, element by element) —
and the direct-send path applies no bound at all: sending once more grows
the set to 1002. -/
theorem c9_counterexample :
    (drain_message_queue c9State (fun _ => true) 0).1.processed_ids.length = 1000 ∧
    (drain_message_queue c9State (fun _ => true) 0).1.processed_ids ≠ [] ∧
    (send_message c9State "fresh" "pay" 0 true).2.1.processed_ids.length = 1002 := by
  have hq : (drain_message_queue c9State (fun _ => true) 0).1.processed_ids =
      prune_processed manyIds := by
    simp [drain_message_queue, c9State, drainGo]
  have hlen : manyIds.length = 1001 := by simp [manyIds]
  have hgt : 1000 < manyIds.length := by omega
  obtain ⟨hdrop, h1000⟩ := prune_processed_of_gt manyIds hgt
  refine ⟨?_, ?_, ?_⟩
  · rw [hq, h1000]
  · rw [hq]
    intro h
    rw [h] at h1000
    simp at h1000
  · have hc : manyIds.contains "fresh" = false := by decide
    have hm : "fresh" ∉ manyIds := by
      intro hmem
      have ht : manyIds.contains "fresh" = true := List.elem_iff.2 hmem
      rw [hc] at ht
      exact Bool.noConfusion ht
    simp [send_message, c9State, insertId, hm, hlen]

/-- Claim C2 (amended): protocol fallback is upgrade-only.  The only
alternate URL ever produced is the `ws://` to `wss://` rewrite of the
input; for a `wss://` URL there is no alternate, so when the first
attempt fails no fallback attempt is made (the result does not depend on
the would-be second attempt) and the call fails — with a retryable
Network error naming the URL and wrapping the failure (manual-TCP path
keeps the original error text, the standard path does not), or a Timeout
error when the attempt timed out — rather than with the original error
value verbatim; and when a `ws://` first attempt fails but the `wss://`
fallback succeeds, the negotiator returns the rewritten URL with
`protocol_switched = true`, and a subsequent successful handshake makes
`connect` return `success = true` with that URL. -/
theorem c2_upgrade_only_fallback :
    (∀ url a, get_safe_alternate_url url = some a →
       strStartsWith url "ws://" = true ∧
       a = strReplaceFirst url "ws://" "wss://" ∧
       a.data = "wss://".data ++ url.data.drop 5 ∧
       strStartsWith a "wss://" = true) ∧
    (∀ url, strStartsWith url "wss://" = true → get_safe_alternate_url url = none) ∧
    (∀ (url : String) (manual : Bool) (tls : Option String) (e : GatewayError)
       (s1 s2 : AttemptOutcome), strStartsWith url "wss://" = true →
       try_connect_with_fallback manual tls url (.fail e) s1 =
         try_connect_with_fallback manual tls url (.fail e) s2) ∧
    (∀ (url : String) (e : GatewayError) (s : AttemptOutcome),
       strStartsWith url "wss://" = true →
       try_connect_with_fallback true none url (.fail e) s =
         .error (.Network ("Unable to connect to Gateway at " ++ url ++ ". Error: " ++ e.display)
           true (some BACKOFF_INITIAL_MS)) ∧
       try_connect_with_fallback false none url (.fail e) s =
         .error (.Network ("Unable to connect to Gateway at " ++ url)
           true (some BACKOFF_INITIAL_MS)) ∧
       try_connect_with_fallback true none url .timeout s = .error (.Timeout 30 none) ∧
       try_connect_with_fallback false none url .timeout s = .error (.Timeout 30 none)) ∧
    (∀ (url : String) (manual : Bool) (e : GatewayError) (evs : List ReaderEvent),
       strStartsWith url "ws://" = true →
       try_connect_with_fallback manual none url (.fail e) .ok =
         .ok (strReplaceFirst url "ws://" "wss://", true) ∧
       strStartsWith (strReplaceFirst url "ws://" "wss://") "wss://" = true ∧
       (resolveHandshake evs = some .Success →
         connectFinish (strReplaceFirst url "ws://" "wss://") true evs =
           .ok { success := true, used_url := strReplaceFirst url "ws://" "wss://",
                 protocol_switched := true })) := by
  refine ⟨?_, gsafe_none_of_wss, ?_, ?_, ?_⟩
  · intro url a h
    unfold get_safe_alternate_url at h
    by_cases hws : strStartsWith url "ws://" = true
    · rw [if_pos hws] at h
      have ha : a = strReplaceFirst url "ws://" "wss://" := (Option.some_inj.1 h).symm
      obtain ⟨hdata, hpre⟩ := strReplaceFirst_ws_data url hws
      exact ⟨hws, ha, by rw [ha]; exact hdata, by rw [ha]; exact hpre⟩
    · rw [if_neg hws] at h
      split at h <;> exact Option.noConfusion h
  · intro url manual tls e s1 s2 h
    simp [try_connect_with_fallback, gsafe_none_of_wss url h]
  · intro url e s h
    refine ⟨?_, ?_, ?_, ?_⟩ <;>
      simp [try_connect_with_fallback, gsafe_none_of_wss url h]
  · intro url manual e evs h
    obtain ⟨hdata, hpre⟩ := strReplaceFirst_ws_data url h
    refine ⟨?_, hpre, ?_⟩
    · simp [try_connect_with_fallback, gsafe_some_of_ws url h]
    · intro hr
      unfold connectFinish
      rw [hr]

/-- Claim C2, witness: the theorem applied at concrete URLs and attempt
outcomes. -/
theorem c2_witness :
    (strStartsWith "ws://gw" "ws://" = true ∧
     "wss://gw" = strReplaceFirst "ws://gw" "ws://" "wss://" ∧
     ("wss://gw" : String).data = "wss://".data ++ ("ws://gw" : String).data.drop 5 ∧
     strStartsWith "wss://gw" "wss://" = true) ∧
    get_safe_alternate_url "wss://gw" = none ∧
    try_connect_with_fallback true none "ws://gw"
        (.fail (.Network "refused" true none)) .ok =
      .ok (strReplaceFirst "ws://gw" "ws://" "wss://", true) :=
  ⟨c2_upgrade_only_fallback.1 "ws://gw" "wss://gw" rfl,
   c2_upgrade_only_fallback.2.1 "wss://gw" rfl,
   (c2_upgrade_only_fallback.2.2.2.2 "ws://gw" true (.Network "refused" true none) []
     rfl).1⟩

/-- Claim C2, counterexample to the claim as stated: when a `wss://` URL
fails, the failure is not returned as-is — the negotiator rewraps it in a
fresh retryable Network error, so a non-retryable original failure comes
back marked retryable. -/
theorem c2_counterexample :
    try_connect_with_fallback true none "wss://gw"
        (.fail (.Network "TLS connector error: boom" false none)) .ok =
      .error (.Network
        "Unable to connect to Gateway at wss://gw. Error: Network error: TLS connector error: boom"
        true (some 5000)) ∧
    GatewayError.is_retryable (.Network "TLS connector error: boom" false none) = false ∧
    GatewayError.is_retryable (.Network
      "Unable to connect to Gateway at wss://gw. Error: Network error: TLS connector error: boom"
      true (some 5000)) = true :=
  ⟨rfl, rfl, rfl⟩

/-- Claim C1 (amended): `connect_internal` blocks on the handshake slot
and returns success only when a `hello-ok` response with `ok = true` was
processed; when nothing resolves the handshake within the 30 s window it
fails with `Timeout`; when the slot is resolved Error (an error response,
a close, or a websocket error) it fails with the corresponding Gateway
error — so a `connect` that never sees `hello-ok` never returns
`success = true`. -/
theorem c1_connect_gated_on_handshake :
    (∀ (used_url : String) (sw : Bool) (evs : List ReaderEvent) (r : ConnectResult),
       connectFinish used_url sw evs = .ok r →
       r.success = true ∧ r.used_url = used_url ∧ r.protocol_switched = sw ∧
       ∃ ev ∈ evs, handshakeEventEffect ev = some .Success) ∧
    (∀ (used_url : String) (sw : Bool) (evs : List ReaderEvent),
       (∀ ev ∈ evs, handshakeEventEffect ev = none) →
       connectFinish used_url sw evs = .error (.Timeout 30 none)) ∧
    (∀ (used_url : String) (sw : Bool) (evs : List ReaderEvent) (code message : String),
       resolveHandshake evs = some (.Error code message) →
       connectFinish used_url sw evs = .error (.Gateway code message none false)) ∧
    (∀ ev, handshakeEventEffect ev = some .Success →
       ∃ id payload error, ev = .frame (.Response id true payload error) ∧
         (payload.bind fun p => (p.lookup "type").bind Json.asStr) = some "hello-ok") := by
  refine ⟨?_, ?_, ?_, ?_⟩
  · intro u sw evs r h
    unfold connectFinish at h
    cases hres : resolveHandshake evs with
    | none => rw [hres] at h; exact Except.noConfusion h
    | some hr =>
        cases hr with
        | Error code message => rw [hres] at h; exact Except.noConfusion h
        | Success =>
            rw [hres] at h
            have hr : r = ⟨true, u, sw⟩ := (Except.ok.inj h).symm
            subst hr
            unfold resolveHandshake at hres
            have hmem : HandshakeResult.Success ∈ evs.filterMap handshakeEventEffect :=
              List.mem_of_mem_head? (Option.mem_def.2 hres)
            obtain ⟨ev, hev, heff⟩ := List.mem_filterMap.1 hmem
            exact ⟨rfl, rfl, rfl, ev, hev, heff⟩
  · intro u sw evs hall
    unfold connectFinish resolveHandshake
    rw [List.filterMap_eq_nil_iff.2 hall]
    rfl
  · intro u sw evs code message hres
    unfold connectFinish
    rw [hres]
  · intro ev h
    cases ev with
    | badFrame =>
        simp only [handshakeEventEffect] at h
        exact Option.noConfusion h
    | pong =>
        simp only [handshakeEventEffect] at h
        exact Option.noConfusion h
    | close reason =>
        simp only [handshakeEventEffect] at h
        exact HandshakeResult.noConfusion (Option.some.inj h)
    | wsError message =>
        simp only [handshakeEventEffect] at h
        exact HandshakeResult.noConfusion (Option.some.inj h)
    | frame f =>
        cases f with
        | Request id method params =>
            simp only [handshakeEventEffect, handshakeFrameEffect] at h
            exact Option.noConfusion h
        | Event event seq payload =>
            simp only [handshakeEventEffect, handshakeFrameEffect] at h
            exact Option.noConfusion h
        | Response id ok payload error =>
            simp only [handshakeEventEffect, handshakeFrameEffect] at h
            split at h
            next hcond =>
              rw [Bool.and_eq_true] at hcond
              obtain ⟨hcr, hok⟩ := hcond
              have hok' : ok = true := hok
              subst hok'
              exact ⟨id, payload, error, rfl, beq_iff_eq.1 hcr⟩
            next hcond =>
              split at h
              next =>
                cases herr : error with
                | none => rw [herr] at h; exact Option.noConfusion h
                | some e =>
                    rw [herr] at h
                    exact HandshakeResult.noConfusion (Option.some.inj h)
              next => exact Option.noConfusion h

/-- Claim C1, witness: the theorem applied at a `hello-ok` run, a run
with no resolving event, and a closed-before-handshake run. -/
theorem c1_witness :
    ((⟨true, "wss://gw", false⟩ : ConnectResult).success = true ∧
     (⟨true, "wss://gw", false⟩ : ConnectResult).used_url = "wss://gw" ∧
     (⟨true, "wss://gw", false⟩ : ConnectResult).protocol_switched = false ∧
     ∃ ev ∈ [helloEvent], handshakeEventEffect ev = some .Success) ∧
    connectFinish "ws://gw" true [ReaderEvent.pong] = .error (.Timeout 30 none) ∧
    connectFinish "ws://gw" true [ReaderEvent.close "bye"] =
      .error (.Gateway "CONNECTION_CLOSED" "bye" none false) :=
  ⟨c1_connect_gated_on_handshake.1 "wss://gw" false [helloEvent] ⟨true, "wss://gw", false⟩ rfl,
   c1_connect_gated_on_handshake.2.1 "ws://gw" true [ReaderEvent.pong]
     (fun ev hev => by
       rw [List.mem_singleton.1 hev]
       rfl),
   c1_connect_gated_on_handshake.2.2.1 "ws://gw" true [ReaderEvent.close "bye"]
     "CONNECTION_CLOSED" "bye" rfl⟩

/-- Claim C1, counterexample to the claim as stated: an execution in
which no `hello-ok` ever arrives but the gateway answers the connect
request with an error response fails with a Gateway error, not with a
Timeout error — the "fails with a Timeout error" part of the claim holds
only for runs in which nothing resolves the handshake. -/
theorem c1_counterexample :
    connectFinish "ws://gw" false
        [.frame (.Response "1" false none
          (some { code := "AUTH_FAILED", message := "bad token", details := none,
                  retryable := none }))] =
      .error (.Gateway "AUTH_FAILED" "bad token" none false) ∧
    (∀ ev ∈ [ReaderEvent.frame (.Response "1" false none
        (some { code := "AUTH_FAILED", message := "bad token", details := none,
                retryable := none }))],
      handshakeEventEffect ev ≠ some .Success) ∧
    (∀ t rid, (GatewayError.Gateway "AUTH_FAILED" "bad token" none false) ≠ .Timeout t rid) := by
  refine ⟨rfl, ?_, ?_⟩
  · intro ev hev
    rw [List.mem_singleton.1 hev]
    intro h
    exact HandshakeResult.noConfusion (Option.some.inj h)
  · intro t rid h
    exact GatewayError.noConfusion h

/-- Claim C4: bounded reconnection.  When credentials are stored, no
shutdown is requested and every connect attempt fails with a retryable,
non-reauth error, the reconnection loop makes exactly
`MAX_RECONNECT_ATTEMPTS` (10) connect attempts and then gives up: the
connection-state trace is exactly `Reconnecting 1 … Reconnecting 10`
followed by one final `Failed` with `can_retry = true` — the `Failed`
state is written only after the 10th failed attempt, and no 11th attempt
is made (the same result holds for every sufficient fuel). -/
theorem c4_bounded_reconnection :
    ∀ (e : Nat → GatewayError) (jit : Nat → Nat) (creds : StoredCredentials)
      (fuel sid : Nat) (cs0 : ConnectionState),
      (∀ n, (e n).is_retryable = true) →
      (∀ n, (e n).requires_reauth = false) →
      11 ≤ fuel → sid < U64_MOD →
      reconnectLoopGo (fun n => some (e n)) jit false (some creds) fuel
          ⟨0, cs0, sid⟩ [] 0 =
        ⟨.gaveUp,
         { reconnect_attempt := 11,
           connection_state := .Failed "Failed to reconnect after 10 attempts" true,
           connection_session_id := (sid + 10) % U64_MOD },
         (List.range' 1 10).map (fun a =>
           ConnectionState.Reconnecting a 10 (calculate_backoff a (jit a)) "Connection lost") ++
           [ConnectionState.Failed "Failed to reconnect after 10 attempts" true],
         10⟩ := by
  intro e jit creds fuel sid cs0 _h1 h2 hfuel hsid
  have h := reconnectLoopGo_all_fail e jit creds h2 10 (le_refl 10) fuel (by omega)
    ⟨0, cs0, sid⟩ rfl hsid [] 0
  rw [h]
  simp [reconnTrace]

/-- Claim C4, witness: the theorem applied to a concrete always-failing
environment with exactly the needed fuel. -/
theorem c4_witness :
    reconnectLoopGo (fun _ => some (.Network "refused" true none)) (fun _ => 0) false
        (some { url := "ws://gw", token := "tok" }) 11 ⟨0, .Disconnected, 0⟩ [] 0 =
      ⟨.gaveUp,
       { reconnect_attempt := 11,
         connection_state := .Failed "Failed to reconnect after 10 attempts" true,
         connection_session_id := (0 + 10) % U64_MOD },
       (List.range' 1 10).map (fun a =>
         ConnectionState.Reconnecting a 10 (calculate_backoff a ((fun _ => 0) a))
           "Connection lost") ++
         [ConnectionState.Failed "Failed to reconnect after 10 attempts" true],
       10⟩ :=
  c4_bounded_reconnection (fun _ => .Network "refused" true none) (fun _ => 0)
    { url := "ws://gw", token := "tok" } 11 0 .Disconnected
    (fun _ => rfl) (fun _ => rfl) (by omega) (by norm_num [U64_MOD])

/-- Claim C3 (amended): the stale-handler guard at its true granularity.
Whenever the reader's per-message staleness check observes a session id
different from the one captured at spawn, the reader exits immediately
without mutating shared state, and an exited reader never mutates again;
along any trace in which the current id differs from the captured id at
every point, an idle reader contributes no mutation at all.  But the
check and the handling of a message are not atomic (no lock is held
across them), so a supersession landing between a passed check and that
message's handling is still followed by that one message's mutation from
the superseded reader; from then on (the reader back at its next check,
or exited) the guard applies and nothing further is mutated. -/
theorem c3_stale_reader_guard :
    (∀ (captured : Nat) (st : SharedState) (ev : WsEvent),
       st.connection_session_id ≠ captured →
       fineStep captured (.idle, st) (.recv ev) = (.done, st)) ∧
    (∀ (captured : Nat) (st : SharedState) (steps : List FineStep),
       runFine captured (.done, st) steps = (.done, externalOnly st steps)) ∧
    (∀ (captured : Nat) (st : SharedState) (steps : List FineStep),
       (∀ k, k ≤ steps.length →
         (externalOnly st (steps.take k)).connection_session_id ≠ captured) →
       (runFine captured (.idle, st) steps).2 = externalOnly st steps) ∧
    (∀ (captured : Nat) (st : SharedState) (ev : WsEvent) (rest : List FineStep),
       (∀ k, k ≤ rest.length →
         (externalOnly (applyEvent st ev).1 (rest.take k)).connection_session_id ≠ captured) →
       (runFine captured (.checked ev, st) (.act :: rest)).2 =
         externalOnly (applyEvent st ev).1 rest) := by
  have hdone : ∀ (captured : Nat) (steps : List FineStep) (st : SharedState),
      runFine captured (.done, st) steps = (.done, externalOnly st steps) := by
    intro captured steps
    induction steps with
    | nil => intro st; rfl
    | cons s rest ih =>
        intro st
        cases s with
        | supersede => exact ih (advanceSession st)
        | recv ev => exact ih st
        | act => exact ih st
  have hidle : ∀ (captured : Nat) (steps : List FineStep) (st : SharedState),
      (∀ k, k ≤ steps.length →
        (externalOnly st (steps.take k)).connection_session_id ≠ captured) →
      (runFine captured (.idle, st) steps).2 = externalOnly st steps := by
    intro captured steps
    induction steps with
    | nil => intro st _; rfl
    | cons s rest ih =>
        intro st h
        cases s with
        | supersede =>
            exact ih (advanceSession st) (fun k hk => by
              have hh := h (k + 1) (by simpa using Nat.succ_le_succ hk)
              simpa [externalOnly, List.take_succ_cons] using hh)
        | act =>
            exact ih st (fun k hk => by
              have hh := h (k + 1) (by simpa using Nat.succ_le_succ hk)
              simpa [externalOnly, List.take_succ_cons] using hh)
        | recv ev =>
            have h0 : st.connection_session_id ≠ captured := by
              have hh := h 0 (Nat.zero_le _)
              simpa [externalOnly] using hh
            have hstep : fineStep captured (.idle, st) (.recv ev) = (.done, st) := by
              show (if st.connection_session_id ≠ captured then
                  ((ReaderPhase.done, st) : ReaderPhase × SharedState)
                else (ReaderPhase.checked ev, st)) = (ReaderPhase.done, st)
              rw [if_pos h0]
            show (runFine captured (fineStep captured (.idle, st) (.recv ev)) rest).2 =
              externalOnly st (.recv ev :: rest)
            rw [hstep, hdone captured rest st]
            rfl
  refine ⟨?_, fun captured st steps => hdone captured steps st,
    fun captured st steps => hidle captured steps st, ?_⟩
  · intro captured st ev h
    show (if st.connection_session_id ≠ captured then
        ((ReaderPhase.done, st) : ReaderPhase × SharedState)
      else (ReaderPhase.checked ev, st)) = (ReaderPhase.done, st)
    rw [if_pos h]
  · intro captured st ev rest h
    show (runFine captured (fineStep captured (.checked ev, st) .act) rest).2 =
      externalOnly (applyEvent st ev).1 rest
    cases hc : (applyEvent st ev).2 with
    | true =>
        have hstep : fineStep captured (.checked ev, st) .act =
            (.idle, (applyEvent st ev).1) := by
          show ((if (applyEvent st ev).2 then ReaderPhase.idle else ReaderPhase.done),
            (applyEvent st ev).1) = (ReaderPhase.idle, (applyEvent st ev).1)
          rw [hc, if_pos rfl]
        rw [hstep]
        exact hidle captured rest (applyEvent st ev).1 h
    | false =>
        have hstep : fineStep captured (.checked ev, st) .act =
            (.done, (applyEvent st ev).1) := by
          show ((if (applyEvent st ev).2 then ReaderPhase.idle else ReaderPhase.done),
            (applyEvent st ev).1) = (ReaderPhase.done, (applyEvent st ev).1)
          rw [hc]
          rfl
        rw [hstep, hdone captured rest (applyEvent st ev).1]

/-- Claim C3, witness: the theorem applied at a concrete superseded
check, an exited reader, a persistently superseded idle reader, and a
pending handling followed by supersession. -/
theorem c3_guard_witness :
    fineStep 0 (.idle, staleState) (.recv (.close "x")) = (.done, staleState) ∧
    runFine 3 (.done, staleState) staleTrace = (.done, externalOnly staleState staleTrace) ∧
    (runFine 0 (.idle, staleState) staleTrace).2 = externalOnly staleState staleTrace ∧
    (runFine 7 (.checked (.close "bye"), raceState) (.act :: [FineStep.supersede])).2 =
      externalOnly (applyEvent raceState (.close "bye")).1 [FineStep.supersede] :=
  ⟨c3_stale_reader_guard.1 0 staleState (.close "x") (by decide),
   c3_stale_reader_guard.2.1 3 staleState staleTrace,
   c3_stale_reader_guard.2.2.1 0 staleState staleTrace (by decide),
   c3_stale_reader_guard.2.2.2 7 raceState (.close "bye") [FineStep.supersede] (by decide)⟩

/-- Claim C3, counterexample to the claim as stated: the staleness check
and the message handling are separate critical sections, so a
supersession can land between them.  In the concrete trace the reader's
check passes while its captured id is still current, the session is then
superseded (the current id moves past the captured one), and the
superseded reader nevertheless mutates shared state afterwards — it
writes Disconnected, clears the sender and clears the active runs —
whereas the supersession alone would have left those fields untouched. -/
theorem c3_counterexample :
    (externalOnly raceState [FineStep.recv (.close "bye"),
        FineStep.supersede]).connection_session_id ≠ 1 ∧
    (runFine 1 (.idle, raceState) raceTrace).2.connection_state = .Disconnected ∧
    (runFine 1 (.idle, raceState) raceTrace).2.sender = none ∧
    (runFine 1 (.idle, raceState) raceTrace).2.active_runs = [] ∧
    (externalOnly raceState raceTrace).sender = some 5 ∧
    (externalOnly raceState raceTrace).connection_state = .Connected none := by
  decide

/-- Claim C5 (amended): backoff bounds.  For every attempt number and
every PRNG sample, `calculate_backoff` stays within
`[initial_ms × 0.9, max_ms × 1.1] = [4500, 66000]` (in fact it is floored
at `initial_ms = 5000`), and the jitter factor is within ±10%.  For
attempts `1 ≤ n ≤ 2^31` — where the `u32 → i32` exponent cast does not
wrap — the jitter-free delay equals
`min(initial_ms × multiplier^(n−1), max_ms)` and is non-decreasing in
`n`.  (Beyond `2^31` the cast wraps and the delay collapses to the
floor; see the counterexample.) -/
theorem c5_backoff_bounds :
    (∀ n m : Nat, 4500 ≤ calculate_backoff n m ∧ calculate_backoff n m ≤ 66000) ∧
    (∀ m : Nat, |rand_simple_val m * (0.2 : ℚ) - 0.1| ≤ 1 / 10) ∧
    (∀ n : Nat, 1 ≤ n → n ≤ 2 ^ 31 →
      delayQ n = min ((5000 : ℚ) * 2 ^ (n - 1)) 60000) ∧
    (∀ n n' : Nat, 1 ≤ n → n ≤ n' → n' ≤ 2 ^ 31 → delayQ n ≤ delayQ n') := by
  refine ⟨?_, jitter_factor_abs_le, delayQ_in_range, ?_⟩
  · intro n m
    have hd0 : 0 < delayQ n := delayQ_pos n
    have hd6 : delayQ n ≤ 60000 := delayQ_le_max n
    have hjab := jitter_abs_le m (delayQ n) (le_of_lt hd0)
    have hj1 : (rand_simple_val m * (0.2 : ℚ) - 0.1) * delayQ n ≤ delayQ n / 10 :=
      (abs_le.1 hjab).2
    simp only [calculate_backoff]
    have h5 : (5000 : ℚ) ≤
        max (delayQ n + (rand_simple_val m * (0.2 : ℚ) - 0.1) * delayQ n) 5000 :=
      le_max_right _ _
    have hfl5 : (5000 : ℤ) ≤
        Int.floor (max (delayQ n + (rand_simple_val m * (0.2 : ℚ) - 0.1) * delayQ n) 5000) :=
      Int.le_floor.2 (by exact_mod_cast h5)
    have hx : max (delayQ n + (rand_simple_val m * (0.2 : ℚ) - 0.1) * delayQ n) 5000 ≤
        (66000 : ℚ) :=
      max_le (by linarith) (by norm_num)
    have hfl : Int.floor
        (max (delayQ n + (rand_simple_val m * (0.2 : ℚ) - 0.1) * delayQ n) 5000) ≤
        (66000 : ℤ) := by
      calc Int.floor (max (delayQ n + (rand_simple_val m * (0.2 : ℚ) - 0.1) * delayQ n) 5000) ≤
            Int.floor ((66000 : ℚ)) := Int.floor_mono hx
      _ = 66000 := by norm_num
    constructor
    · have h50 : 5000 ≤ (Int.floor
          (max (delayQ n + (rand_simple_val m * (0.2 : ℚ) - 0.1) * delayQ n) 5000)).toNat :=
        (Int.le_toNat (le_trans (by norm_num) hfl5)).2 hfl5
      omega
    · exact Int.toNat_le.2 hfl
  · intro n n' h1 hle h2
    rw [delayQ_in_range n h1 (by omega), delayQ_in_range n' (by omega) h2]
    refine min_le_min ?_ (le_refl _)
    exact mul_le_mul_of_nonneg_left
      (pow_le_pow_right₀ (by norm_num) (by omega)) (by norm_num)

/-- Claim C5, witness: the theorem applied at concrete attempts and a
concrete PRNG sample. -/
theorem c5_witness :
    (4500 ≤ calculate_backoff 3 777 ∧ calculate_backoff 3 777 ≤ 66000) ∧
    |rand_simple_val 777 * (0.2 : ℚ) - 0.1| ≤ 1 / 10 ∧
    delayQ 2 = min ((5000 : ℚ) * 2 ^ (2 - 1)) 60000 ∧
    delayQ 2 ≤ delayQ 3 :=
  ⟨c5_backoff_bounds.1 3 777,
   c5_backoff_bounds.2.1 777,
   c5_backoff_bounds.2.2.1 2 (by omega) (by norm_num),
   c5_backoff_bounds.2.2.2 2 3 (by omega) (by omega) (by norm_num)⟩

/-- Claim C5, counterexample to the claim as stated: at attempt
`n = 2^31 + 1` the `u32 → i32` cast of the exponent wraps to `-2^31`, so
the jitter-free delay collapses below the previous attempt's delay
(monotonicity fails), and `calculate_backoff` returns the 5000 ms floor
even though the claimed formula `min(5000 × 2^(n−1), 60000) ± 10%` would
require at least 54000 ms. -/
theorem c5_counterexample :
    delayQ (2 ^ 31 + 1) < delayQ (2 ^ 31) ∧
    delayQ (2 ^ 31) = 60000 ∧
    calculate_backoff (2 ^ 31 + 1) 500 = 5000 ∧
    min ((5000 : ℚ) * 2 ^ ((2 ^ 31 + 1 : Nat) - 1)) 60000 = 60000 ∧
    calculate_backoff (2 ^ 31 + 1) 500 < 54000 := by
  have hcast : u32_as_i32 (2 ^ 31 + 1 - 1) = -(2 ^ 31) := by
    unfold u32_as_i32
    norm_num
  obtain ⟨t, ht_def, ht0, ht1⟩ :
      ∃ t : ℚ, (2 : ℚ) ^ (-(2 ^ 31) : ℤ) = t ∧ 0 < t ∧ t ≤ 1 :=
    ⟨_, rfl, zpow_pos (by norm_num) _, zpow_le_one_of_nonpos₀ (by norm_num) (by norm_num)⟩
  obtain ⟨x, hx_def, hx16⟩ :
      ∃ x : ℚ, (2 : ℚ) ^ (2 ^ 31 - 1 : Nat) = x ∧ 16 ≤ x :=
    ⟨_, rfl, by
      calc (16 : ℚ) = 2 ^ (4 : Nat) := by norm_num
      _ ≤ (2 : ℚ) ^ (2 ^ 31 - 1 : Nat) := pow_le_pow_right₀ (by norm_num) (by norm_num)⟩
  obtain ⟨y, hy_def, hy16⟩ :
      ∃ y : ℚ, (2 : ℚ) ^ ((2 ^ 31 + 1 : Nat) - 1) = y ∧ 16 ≤ y :=
    ⟨_, rfl, by
      calc (16 : ℚ) = 2 ^ (4 : Nat) := by norm_num
      _ ≤ (2 : ℚ) ^ ((2 ^ 31 + 1 : Nat) - 1) := pow_le_pow_right₀ (by norm_num) (by norm_num)⟩
  have hsmall : delayQ (2 ^ 31 + 1) = 5000 * t := by
    unfold delayQ
    rw [hcast, ht_def]
    exact min_eq_left (by linarith)
  have hbig : delayQ (2 ^ 31) = 60000 := by
    rw [delayQ_in_range (2 ^ 31) (by norm_num) (le_refl _), hx_def]
    exact min_eq_right (by linarith)
  have hspec : min ((5000 : ℚ) * 2 ^ ((2 ^ 31 + 1 : Nat) - 1)) 60000 = 60000 := by
    rw [hy_def]
    exact min_eq_right (by linarith)
  have hcb : calculate_backoff (2 ^ 31 + 1) 500 = 5000 := by
    simp only [calculate_backoff]
    have hr : rand_simple_val 500 * (0.2 : ℚ) - 0.1 = 0 := by
      unfold rand_simple_val
      norm_num
    rw [hr, hsmall, zero_mul, add_zero, max_eq_right (by linarith)]
    norm_num
    rfl
  refine ⟨?_, hbig, hcb, hspec, ?_⟩
  · rw [hsmall, hbig]
    linarith
  · rw [hcb]
    norm_num


end Molt
